import Mathlib

/-!
# Verification of the openshaz job dispatch/retry protocol and similarity engine

Shallow embedding of the core of the `openshaz` repository:

* the Retry Governor (`get_retry_count`, `requeue_with_retry_count` in
  `docker/app/worker/src/__main__.py`),
* the RPC client (`_rpc_call`, `on_response` in
  `docker/app/api/src/modules/repository.py`),
* the fire-and-forget submitter (`_fire_and_forget`, same file),
* the similarity engine (`SimilarityEngine` in
  `docker/app/worker/src/modules/similarity.py`).

Pure data manipulation is translated to Lean functions; the broker
interactions of a single call are modelled as explicit traces (which
messages arrive at each poll iteration, which broker operations raise),
and the effect of a handler is a returned action value rather than an
in-place channel mutation.  Python floats are modelled as real numbers.
-/

/-! ## Retry Governor (worker/src/__main__.py)

`pika.BasicProperties` is modelled by its fields used in the worker:
`headers` (a JSON object of string keys; the only header used carries an
integer), `correlation_id`, `reply_to`, `delivery_mode`.  A `None`
headers attribute and an empty dict are both falsy in
`if properties.headers and ...`; an absent entry and an empty dict give
the same lookup result `none`, so headers are an optional association
list. -/

structure BasicProperties where
  headers : Option (List (String × Int))
  correlation_id : Option String
  reply_to : Option String
  delivery_mode : Option Nat
deriving DecidableEq, Repr

/-- The delivery-method argument of a pika callback: delivery tag and
routing key. -/
structure DeliveryMethod where
  delivery_tag : Nat
  routing_key : String
deriving DecidableEq, Repr

/-- A message published with `basic_publish`. -/
structure PublishedMessage where
  exchange : String
  routing_key : String
  properties : BasicProperties
  body : String
deriving DecidableEq, Repr

/-- The observable effect of `requeue_with_retry_count`: either it
republishes a message and acks the original delivery tag, or it nacks the
original delivery tag with the given `requeue` flag and publishes
nothing. -/
inductive GovernorOutcome where
  | republished (msg : PublishedMessage) (ackedTag : Nat)
  | discarded (nackedTag : Nat) (requeue : Bool)
deriving DecidableEq, Repr

/-- `MAX_JOB_RETRIES = 3` from `worker/src/__main__.py`. -/
def MAX_JOB_RETRIES : Int := 3

/-- `get_retry_count`: read `x-retry-count` from the message headers,
returning 0 when the headers are falsy (None or empty) or the key is
absent. -/
def get_retry_count (properties : BasicProperties) : Int :=
  match properties.headers with
  | some hs =>
    match hs.lookup "x-retry-count" with
    | some v => v
    | none => 0
  | none => 0

/-- `should_requeue`: retry count strictly below the ceiling. -/
def should_requeue (properties : BasicProperties) : Bool :=
  get_retry_count properties < MAX_JOB_RETRIES

/-- Python dict update `headers["x-retry-count"] = retry_count` on an
association list: replace the first binding of the key, or append one. -/
def setHeader : List (String × Int) → String → Int → List (String × Int)
  | [], k, v => [(k, v)]
  | (k', v') :: rest, k, v =>
    if k' = k then (k, v) :: rest else (k', v') :: setHeader rest k v

/-- `requeue_with_retry_count`: increment the retry count; past the
ceiling, nack without requeue; otherwise republish the same body to the
same routing key with the updated header, preserving `correlation_id` and
`reply_to` (delivery mode 2), and ack the original delivery. -/
def requeue_with_retry_count (properties : BasicProperties)
    (method : DeliveryMethod) (body : String) : GovernorOutcome :=
  let retry_count := get_retry_count properties + 1
  if retry_count > MAX_JOB_RETRIES then
    .discarded method.delivery_tag false
  else
    let headers := properties.headers.getD []
    let headers := setHeader headers "x-retry-count" retry_count
    let new_properties : BasicProperties :=
      ⟨some headers, properties.correlation_id, properties.reply_to, some 2⟩
    .republished ⟨"", method.routing_key, new_properties, body⟩
      method.delivery_tag

theorem lookup_setHeader : ∀ (hs : List (String × Int)) (k : String) (v : Int),
    (setHeader hs k v).lookup k = some v
  | [], k, v => by simp [setHeader, List.lookup]
  | (k', v') :: rest, k, v => by
    by_cases h : k' = k
    · subst h
      simp [setHeader, List.lookup]
    · have hne : (k == k') = false := beq_eq_false_iff_ne.mpr fun hk => h hk.symm
      rw [setHeader, if_neg h]
      simp [List.lookup, hne, lookup_setHeader rest k v]

/-- The successive redeliveries of one logical job: delivery 0 is the
original message; each handler failure feeds the current delivery to the
Retry Governor, and the republished message (if any) is the next
delivery.  `none` means the job was discarded before reaching that many
failures. -/
def deliveryAfterFailures (p₀ : BasicProperties) (m : DeliveryMethod)
    (b : String) : Nat → Option (BasicProperties × String)
  | 0 => some (p₀, b)
  | k + 1 =>
    match deliveryAfterFailures p₀ m b k with
    | none => none
    | some (p, body) =>
      match requeue_with_retry_count p m body with
      | .republished msg _ => some (msg.properties, msg.body)
      | .discarded _ _ => none

theorem get_retry_count_none (c r : Option String) (d : Option Nat) :
    get_retry_count ⟨none, c, r, d⟩ = 0 := rfl

theorem get_retry_count_single (c r : Option String) (d : Option Nat) (n : Int) :
    get_retry_count ⟨some [("x-retry-count", n)], c, r, d⟩ = n := by
  simp [get_retry_count, List.lookup]

theorem requeue_first (c r : Option String) (d : Option Nat)
    (m : DeliveryMethod) (b : String) :
    requeue_with_retry_count ⟨none, c, r, d⟩ m b =
      .republished ⟨"", m.routing_key,
        ⟨some [("x-retry-count", 1)], c, r, some 2⟩, b⟩ m.delivery_tag := by
  simp only [requeue_with_retry_count, get_retry_count]
  rw [if_neg (by simp [MAX_JOB_RETRIES])]
  simp [setHeader]

theorem requeue_step (c r : Option String) (d : Option Nat)
    (m : DeliveryMethod) (b : String) (n : Int) (h : n < 3) :
    requeue_with_retry_count ⟨some [("x-retry-count", n)], c, r, d⟩ m b =
      .republished ⟨"", m.routing_key,
        ⟨some [("x-retry-count", n + 1)], c, r, some 2⟩, b⟩ m.delivery_tag := by
  simp only [requeue_with_retry_count, get_retry_count_single]
  rw [if_neg (by simp only [MAX_JOB_RETRIES, gt_iff_lt, not_lt]; omega)]
  simp [setHeader]

theorem requeue_discard (c r : Option String) (d : Option Nat)
    (m : DeliveryMethod) (b : String) (n : Int) (h : 3 ≤ n) :
    requeue_with_retry_count ⟨some [("x-retry-count", n)], c, r, d⟩ m b =
      .discarded m.delivery_tag false := by
  simp only [requeue_with_retry_count, get_retry_count_single]
  rw [if_pos (by simp only [MAX_JOB_RETRIES, gt_iff_lt]; omega)]

/-- C1: on a delivery whose `x-retry-count` header value is strictly below
`MAX_JOB_RETRIES` (3), `requeue_with_retry_count` republishes the same body
to the same routing key with the header incremented by one and the original
`correlation_id` and `reply_to` preserved, acking the original delivery;
on a delivery whose header value is at least 3 it nacks the original
delivery with `requeue = false` and publishes nothing. -/
theorem C1_retry_governor (p : BasicProperties) (m : DeliveryMethod) (b : String) :
    (get_retry_count p < MAX_JOB_RETRIES →
      ∃ msg : PublishedMessage,
        requeue_with_retry_count p m b = .republished msg m.delivery_tag ∧
        msg.body = b ∧
        msg.routing_key = m.routing_key ∧
        get_retry_count msg.properties = get_retry_count p + 1 ∧
        msg.properties.correlation_id = p.correlation_id ∧
        msg.properties.reply_to = p.reply_to) ∧
    (MAX_JOB_RETRIES ≤ get_retry_count p →
      requeue_with_retry_count p m b = .discarded m.delivery_tag false) := by
  constructor
  · intro h
    refine ⟨⟨"", m.routing_key,
      ⟨some (setHeader (p.headers.getD []) "x-retry-count" (get_retry_count p + 1)),
       p.correlation_id, p.reply_to, some 2⟩, b⟩, ?_, rfl, rfl, ?_, rfl, rfl⟩
    · simp only [requeue_with_retry_count]
      rw [if_neg (by omega)]
    · simp [get_retry_count, lookup_setHeader]
  · intro h
    simp only [requeue_with_retry_count]
    rw [if_pos (by omega)]

theorem C1_retry_governor_witness :
    (∃ msg : PublishedMessage,
      requeue_with_retry_count ⟨none, some "c", some "r", none⟩ ⟨7, "q"⟩ "body" =
        .republished msg (DeliveryMethod.mk 7 "q").delivery_tag ∧
      msg.body = "body" ∧
      msg.routing_key = (DeliveryMethod.mk 7 "q").routing_key ∧
      get_retry_count msg.properties =
        get_retry_count ⟨none, some "c", some "r", none⟩ + 1 ∧
      msg.properties.correlation_id =
        (BasicProperties.mk none (some "c") (some "r") none).correlation_id ∧
      msg.properties.reply_to =
        (BasicProperties.mk none (some "c") (some "r") none).reply_to) ∧
    requeue_with_retry_count ⟨some [("x-retry-count", 3)], none, none, none⟩
      ⟨8, "q"⟩ "b" = .discarded (DeliveryMethod.mk 8 "q").delivery_tag false :=
  ⟨(C1_retry_governor ⟨none, some "c", some "r", none⟩ ⟨7, "q"⟩ "body").1 (by decide),
   (C1_retry_governor ⟨some [("x-retry-count", 3)], none, none, none⟩ ⟨8, "q"⟩ "b").2
     (by decide)⟩

/-- C2: the header read by the worker is 0 when headers are absent; starting
from a first delivery with no headers, after `k ≤ 3` handler failures the
redelivered message carries `x-retry-count = k` and the body is unchanged;
the fourth failure discards the message (no further redelivery); and no
republished message ever carries a header above `MAX_JOB_RETRIES` (3). -/
theorem C2_retry_count_invariant :
    (∀ (c r : Option String) (d : Option Nat),
      get_retry_count ⟨none, c, r, d⟩ = 0) ∧
    (∀ (c r : Option String) (d : Option Nat) (m : DeliveryMethod) (b : String)
      (k : Nat), k ≤ 3 →
      ∃ p body, deliveryAfterFailures ⟨none, c, r, d⟩ m b k = some (p, body) ∧
        get_retry_count p = (k : Int) ∧ body = b) ∧
    (∀ (c r : Option String) (d : Option Nat) (m : DeliveryMethod) (b : String),
      deliveryAfterFailures ⟨none, c, r, d⟩ m b 4 = none) ∧
    (∀ (p : BasicProperties) (m : DeliveryMethod) (b : String)
      (msg : PublishedMessage) (tag : Nat),
      requeue_with_retry_count p m b = .republished msg tag →
      get_retry_count msg.properties ≤ MAX_JOB_RETRIES) := by
  refine ⟨fun c r d => rfl, ?_, ?_, ?_⟩
  · intro c r d m b k hk
    interval_cases k
    · exact ⟨⟨none, c, r, d⟩, b, rfl, rfl, rfl⟩
    · refine ⟨⟨some [("x-retry-count", 1)], c, r, some 2⟩, b, ?_, ?_, rfl⟩
      · simp [deliveryAfterFailures, requeue_first]
      · simp [get_retry_count_single]
    · refine ⟨⟨some [("x-retry-count", 2)], c, r, some 2⟩, b, ?_, ?_, rfl⟩
      · simp [deliveryAfterFailures, requeue_first,
          requeue_step c r (some 2) m b 1 (by norm_num)]
      · simp [get_retry_count_single]
    · refine ⟨⟨some [("x-retry-count", 3)], c, r, some 2⟩, b, ?_, ?_, rfl⟩
      · simp [deliveryAfterFailures, requeue_first,
          requeue_step c r (some 2) m b 1 (by norm_num),
          requeue_step c r (some 2) m b 2 (by norm_num)]
      · simp [get_retry_count_single]
  · intro c r d m b
    simp [deliveryAfterFailures, requeue_first,
      requeue_step c r (some 2) m b 1 (by norm_num),
      requeue_step c r (some 2) m b 2 (by norm_num),
      requeue_discard c r (some 2) m b 3 (by norm_num)]
  · intro p m b msg tag h
    by_cases hc : get_retry_count p + 1 > MAX_JOB_RETRIES
    · simp only [requeue_with_retry_count] at h
      rw [if_pos hc] at h
      simp at h
    · simp only [requeue_with_retry_count] at h
      rw [if_neg hc] at h
      injection h with h1 h2
      rw [← h1]
      have hg : get_retry_count p + 1 ≤ MAX_JOB_RETRIES := by omega
      simp only [get_retry_count, lookup_setHeader] at hg ⊢
      exact hg

theorem C2_retry_count_invariant_witness :
    get_retry_count ⟨none, some "c", some "r", none⟩ = 0 ∧
    (∃ p body,
      deliveryAfterFailures ⟨none, some "c", some "r", none⟩ ⟨1, "q"⟩ "b" 2 =
        some (p, body) ∧
      get_retry_count p = ((2 : Nat) : Int) ∧ body = "b") ∧
    deliveryAfterFailures ⟨none, some "c", some "r", none⟩ ⟨1, "q"⟩ "b" 4 = none ∧
    get_retry_count
      (PublishedMessage.mk ""
        (DeliveryMethod.mk 1 "q").routing_key
        ⟨some [("x-retry-count", 1)], some "c", some "r", some 2⟩ "b").properties ≤
      MAX_JOB_RETRIES :=
  ⟨C2_retry_count_invariant.1 (some "c") (some "r") none,
   C2_retry_count_invariant.2.1 (some "c") (some "r") none ⟨1, "q"⟩ "b" 2
     (by norm_num),
   C2_retry_count_invariant.2.2.1 (some "c") (some "r") none ⟨1, "q"⟩ "b",
   C2_retry_count_invariant.2.2.2 ⟨none, some "c", some "r", none⟩ ⟨1, "q"⟩ "b"
     _ _ (requeue_first (some "c") (some "r") none ⟨1, "q"⟩ "b")⟩

/-! ## RPC client (api/src/modules/repository.py)

`_rpc_call` opens a connection, declares the work queue and a private
exclusive reply queue, registers `on_response` as consumer, publishes the
payload with a fresh correlation id, then polls
`connection.process_data_events(time_limit=1)` in a
`while response is None` loop, raising `TimeoutError` when
`time.time() - start > timeout`; only that loop is wrapped in
`try/finally: connection.close()`.

One call is modelled against an environment describing the broker's
behaviour: whether each pre-loop operation raises, and, per poll
iteration, whether `process_data_events` raises, which reply-queue
messages it delivers, and the elapsed time observed at the following
timeout check.  The result of the model is the call's outcome paired with
whether the connection was closed when control left `_rpc_call`. -/

structure ReplyMessage where
  correlation_id : Option String
  delivery_tag : Nat
  body : String
deriving DecidableEq, Repr

/-- One iteration of the wait loop: whether `process_data_events` raises,
the reply-queue deliveries it hands to `on_response`, and the value of
`time.time() - start` read by the timeout check that follows it. -/
structure PollIteration where
  raises : Bool
  msgs : List ReplyMessage
  elapsedAfter : Int
deriving DecidableEq, Repr

structure RpcEnv where
  declare_work_raises : Bool
  declare_reply_raises : Bool
  consume_raises : Bool
  publish_raises : Bool
  iterations : List PollIteration
deriving DecidableEq, Repr

inductive RpcOutcome where
  | ok (response : String)
  | timeoutError
  | exn
  | stillWaiting
deriving DecidableEq, Repr

/-- `on_response`: if the delivery's correlation id equals the call's, set
the `response` slot to the body and ack; otherwise do nothing.  Returns
the updated slot and whether the delivery was acked. -/
def on_response (correlation_id : String) (response : Option String)
    (msg : ReplyMessage) : Option String × Bool :=
  if msg.correlation_id = some correlation_id then (some msg.body, true)
  else (response, false)

/-- `process_data_events`: feed each delivery of this iteration to
`on_response`, threading the `response` slot. -/
def processDataEvents (correlation_id : String) (response : Option String)
    (msgs : List ReplyMessage) : Option String :=
  msgs.foldl (fun r msg => (on_response correlation_id r msg).1) response

/-- The `while response is None` loop with its `try/finally`.  Every exit
from the loop body (normal exit on a set response, `TimeoutError`, an
exception from `process_data_events`) passes through the `finally` and
closes the connection (second component `true`).  `stillWaiting` marks a
trace too short for the loop to have exited: control has not left
`_rpc_call`. -/
def rpcWait (correlation_id : String) (timeout : Int) :
    Option String → List PollIteration → RpcOutcome × Bool
  | some r, _ => (.ok r, true)
  | none, [] => (.stillWaiting, false)
  | none, it :: rest =>
    if it.raises then (.exn, true)
    else
      let response := processDataEvents correlation_id none it.msgs
      if it.elapsedAfter > timeout then (.timeoutError, true)
      else rpcWait correlation_id timeout response rest

/-- `_rpc_call`: the pre-loop broker operations (`queue_declare` of the
work queue, `queue_declare` of the reply queue, `basic_consume`,
`basic_publish`) run after the connection is opened but before the
`try/finally`, so an exception there leaves `_rpc_call` with the
connection open (second component `false`). -/
def _rpc_call (correlation_id : String) (timeout : Int) (env : RpcEnv) :
    RpcOutcome × Bool :=
  if env.declare_work_raises then (.exn, false)
  else if env.declare_reply_raises then (.exn, false)
  else if env.consume_raises then (.exn, false)
  else if env.publish_raises then (.exn, false)
  else rpcWait correlation_id timeout none env.iterations

theorem processDataEvents_inv (cid : String) :
    ∀ (msgs : List ReplyMessage) (response : Option String) (b : String),
    processDataEvents cid response msgs = some b →
    response = some b ∨
      ∃ msg ∈ msgs, msg.correlation_id = some cid ∧ msg.body = b
  | [], response, b, h => .inl h
  | m :: rest, response, b, h => by
    rw [processDataEvents, List.foldl_cons] at h
    have := processDataEvents_inv cid rest ((on_response cid response m).1) b h
    rcases this with h' | ⟨msg, hmem, hc, hb⟩
    · by_cases hm : m.correlation_id = some cid
      · rw [on_response, if_pos hm] at h'
        right
        exact ⟨m, List.mem_cons_self m rest, hm, Option.some_inj.mp h'⟩
      · rw [on_response, if_neg hm] at h'
        exact .inl h'
    · exact .inr ⟨msg, List.mem_cons_of_mem m hmem, hc, hb⟩

theorem rpcWait_resolves (cid : String) (timeout : Int) :
    ∀ (iters : List PollIteration) (response : Option String),
    (∀ it ∈ iters, it.raises = false) →
    ((∃ it ∈ iters, it.elapsedAfter > timeout) ∨ ∃ r, response = some r) →
    (rpcWait cid timeout response iters).1 = .timeoutError ∨
      ∃ b, (rpcWait cid timeout response iters).1 = .ok b ∧
        (response = some b ∨
          ∃ it ∈ iters, ∃ msg ∈ it.msgs,
            msg.correlation_id = some cid ∧ msg.body = b)
  | iters, some r, _, _ => by
    right
    exact ⟨r, by rw [rpcWait], .inl rfl⟩
  | [], none, _, hadq => by
    rcases hadq with ⟨it, hmem, _⟩ | ⟨r, hr⟩
    · exact absurd hmem (List.not_mem_nil it)
    · exact absurd hr (by simp)
  | it :: rest, none, hraises, hadq => by
    have hr0 : it.raises = false := hraises it (List.mem_cons_self it rest)
    rw [rpcWait, if_neg (by rw [hr0]; exact Bool.false_ne_true)]
    by_cases hel : it.elapsedAfter > timeout
    · rw [if_pos hel]
      exact .inl rfl
    · rw [if_neg hel]
      have hraises' : ∀ i ∈ rest, i.raises = false :=
        fun i hi => hraises i (List.mem_cons_of_mem it hi)
      have hadq' : (∃ i ∈ rest, i.elapsedAfter > timeout) ∨
          ∃ r, processDataEvents cid none it.msgs = some r := by
        cases hre : processDataEvents cid none it.msgs with
        | some b => exact .inr ⟨b, rfl⟩
        | none =>
          left
          rcases hadq with ⟨i, hmem, hgt⟩ | ⟨r, hr⟩
          · rcases List.mem_cons.mp hmem with heq | hmem'
            · exact absurd (heq ▸ hgt) hel
            · exact ⟨i, hmem', hgt⟩
          · exact absurd hr (by simp)
      rcases rpcWait_resolves cid timeout rest
          (processDataEvents cid none it.msgs) hraises' hadq' with
        ht | ⟨b, hok, hsrc⟩
      · exact .inl ht
      · right
        refine ⟨b, hok, .inr ?_⟩
        rcases hsrc with hre | ⟨i, hmem, msg, hmsg, hc, hb⟩
        · rcases processDataEvents_inv cid it.msgs none b hre with h0 | hm
          · exact absurd h0 (by simp)
          · exact ⟨it, List.mem_cons_self it rest, hm⟩
        · exact ⟨i, List.mem_cons_of_mem it hmem, msg, hmsg, hc, hb⟩

/-- C3: in a run where the broker operations do not themselves raise and
the clock eventually passes the deadline, `_rpc_call` has exactly one of
two outcomes: it returns the body of a reply whose correlation id equals
the call's correlation id, or it fails with `TimeoutError`; and if no
delivery in the whole trace has a matching correlation id, the outcome is
`TimeoutError`. -/
theorem C3_rpc_exactly_one (cid : String) (timeout : Int) (env : RpcEnv)
    (h1 : env.declare_work_raises = false)
    (h2 : env.declare_reply_raises = false)
    (h3 : env.consume_raises = false)
    (h4 : env.publish_raises = false)
    (h5 : ∀ it ∈ env.iterations, it.raises = false)
    (h6 : ∃ it ∈ env.iterations, it.elapsedAfter > timeout) :
    Xor' ((_rpc_call cid timeout env).1 = .timeoutError)
      (∃ b, (_rpc_call cid timeout env).1 = .ok b ∧
        ∃ it ∈ env.iterations, ∃ msg ∈ it.msgs,
          msg.correlation_id = some cid ∧ msg.body = b) ∧
    ((∀ it ∈ env.iterations, ∀ msg ∈ it.msgs, msg.correlation_id ≠ some cid) →
      (_rpc_call cid timeout env).1 = .timeoutError) := by
  have hcall : _rpc_call cid timeout env =
      rpcWait cid timeout none env.iterations := by
    rw [_rpc_call, h1, h2, h3, h4]
    simp
  have hres := rpcWait_resolves cid timeout env.iterations none h5 (.inl h6)
  rw [← hcall] at hres
  constructor
  · rcases hres with ht | ⟨b, hok, hsrc⟩
    · refine .inl ⟨ht, ?_⟩
      rintro ⟨b, hok, -⟩
      rw [ht] at hok
      exact RpcOutcome.noConfusion hok
    · rcases hsrc with h0 | hm
      · exact absurd h0 (by simp)
      · refine .inr ⟨⟨b, hok, hm⟩, ?_⟩
        intro ht
        rw [ht] at hok
        exact RpcOutcome.noConfusion hok
  · intro hnone
    rcases hres with ht | ⟨b, hok, hsrc⟩
    · exact ht
    · rcases hsrc with h0 | ⟨it, hit, msg, hmsg, hc, -⟩
      · exact absurd h0 (by simp)
      · exact absurd hc (hnone it hit msg hmsg)

theorem C3_rpc_exactly_one_witness :
    Xor'
      ((_rpc_call "c" 30
        ⟨false, false, false, false,
          [⟨false, [⟨some "c", 1, "res"⟩], 1⟩, ⟨false, [], 31⟩]⟩).1 =
        .timeoutError)
      (∃ b, (_rpc_call "c" 30
        ⟨false, false, false, false,
          [⟨false, [⟨some "c", 1, "res"⟩], 1⟩, ⟨false, [], 31⟩]⟩).1 = .ok b ∧
        ∃ it ∈ (RpcEnv.mk false false false false
          [⟨false, [⟨some "c", 1, "res"⟩], 1⟩, ⟨false, [], 31⟩]).iterations,
          ∃ msg ∈ it.msgs, msg.correlation_id = some "c" ∧ msg.body = b) ∧
    ((∀ it ∈ (RpcEnv.mk false false false false
        [⟨false, [⟨some "c", 1, "res"⟩], 1⟩, ⟨false, [], 31⟩]).iterations,
        ∀ msg ∈ it.msgs, msg.correlation_id ≠ some "c") →
      (_rpc_call "c" 30
        ⟨false, false, false, false,
          [⟨false, [⟨some "c", 1, "res"⟩], 1⟩, ⟨false, [], 31⟩]⟩).1 =
        .timeoutError) :=
  C3_rpc_exactly_one "c" 30
    ⟨false, false, false, false,
      [⟨false, [⟨some "c", 1, "res"⟩], 1⟩, ⟨false, [], 31⟩]⟩
    rfl rfl rfl rfl (by decide) (by decide)

/-- C4 is a code bug: `on_response` acks a reply-queue delivery only when
its correlation id matches the call's; a delivery with a non-matching
correlation id is left unacknowledged (second component `false`) and the
response slot is unchanged, contrary to the requirement that such
messages be acknowledged and discarded.  A matching delivery is acked. -/
theorem C4_mismatch_left_unacked :
    on_response "cid-a" none ⟨some "cid-b", 1, "body"⟩ = (none, false) ∧
    on_response "cid-a" none ⟨some "cid-a", 1, "body"⟩ = (some "body", true) := by
  constructor <;> decide

/-- C5 is a code bug: the `finally: connection.close()` wraps only the
wait loop, so when `queue_declare` raises, `_rpc_call` exits by exception
with the connection still open (a leak), while the success and timeout
exits of the loop do close the connection. -/
theorem C5_connection_leak_on_declare :
    _rpc_call "c" 30 ⟨true, false, false, false, []⟩ = (.exn, false) ∧
    (rpcWait "c" 30 none [⟨false, [], 31⟩]).2 = true ∧
    (rpcWait "c" 30 none
      [⟨false, [⟨some "c", 1, "res"⟩], 1⟩, ⟨false, [], 31⟩]).2 = true := by
  refine ⟨rfl, by decide, by decide⟩

/-! ## Similarity engine (worker/src/modules/similarity.py)

Python floats and numpy arrays are modelled over the real numbers; a
vector is a list of reals, a matrix a list of rows.  `StandardScaler` is
modelled by its fitted per-column mean and scale (population standard
deviation, with zero deviations replaced by 1, as sklearn does); its
`transform` checks the feature count of its input.  `cosine_similarity`
and `euclidean_distances` reject a query whose length differs from the
fitted column count (sklearn `check_pairwise_arrays`), while the
manhattan branch subtracts the raw numpy arrays, which broadcasts a
`(1, L)` query against the `(N, D)` matrix whenever `L = D`, `L = 1` or
`D = 1` and only raises otherwise.  The `isinstance(..., np.ndarray)`
check of `find_similar` is a Python type test with no counterpart here
(every model query is already a vector). -/

inductive Metric where
  | cosine
  | euclidean
  | manhattan
deriving DecidableEq, Repr

/-- One row of the fitted DataFrame: the `id` and `name` columns plus the
feature columns. -/
structure AudioRow where
  id : Int
  name : String
  features : List ℝ

/-- One entry of the list returned by `find_similar`: the original row
index, the similarity score, and (when a DataFrame is attached) the `id`
and `name` of that row. -/
structure SimilarityResult where
  index : Nat
  similarity : ℝ
  id : Option Int
  name : Option String

structure SimilarityEngine where
  metric : Metric
  normalize : Bool
  scaler : Option (List ℝ × List ℝ)
  feature_matrix : Option (List (List ℝ))
  df : Option (List (Int × String))

/-- `__init__`: no fitted matrix, no fitted scaler statistics, no
DataFrame. -/
def SimilarityEngine.init (metric : Metric) (normalize : Bool) :
    SimilarityEngine :=
  ⟨metric, normalize, none, none, none⟩

/-- Column mean of a matrix (`StandardScaler` fit statistic). -/
noncomputable def colMean (M : List (List ℝ)) (j : Nat) : ℝ :=
  (M.map (fun row => row.getD j 0)).sum / M.length

/-- Column population standard deviation (`StandardScaler` fit
statistic). -/
noncomputable def colStd (M : List (List ℝ)) (j : Nat) : ℝ :=
  Real.sqrt ((M.map (fun row => (row.getD j 0 - colMean M j) ^ 2)).sum / M.length)

/-- `StandardScaler.scale_`: standard deviation with zeros replaced by
1. -/
noncomputable def colScale (M : List (List ℝ)) (j : Nat) : ℝ :=
  if colStd M j = 0 then 1 else colStd M j

/-- `StandardScaler.transform` of one row with the fitted statistics. -/
noncomputable def standardize (mean scale : List ℝ) (row : List ℝ) : List ℝ :=
  (List.range mean.length).map
    (fun j => (row.getD j 0 - mean.getD j 0) / scale.getD j 1)

/-- `fit`: keep the id/name side table, take the feature columns as the
matrix, and when normalization is on, fit the scaler on this matrix and
transform the matrix in place. -/
noncomputable def SimilarityEngine.fit (e : SimilarityEngine)
    (df : List AudioRow) : SimilarityEngine :=
  let matrix := df.map (fun r => r.features)
  let side := df.map (fun r => (r.id, r.name))
  if e.normalize then
    let D := (matrix.headD []).length
    let mean := (List.range D).map (colMean matrix)
    let scale := (List.range D).map (colScale matrix)
    { e with scaler := some (mean, scale),
             feature_matrix := some (matrix.map (standardize mean scale)),
             df := some side }
  else
    { e with feature_matrix := some matrix, df := some side }

noncomputable def dotProduct (x y : List ℝ) : ℝ := (x.zipWith (· * ·) y).sum

noncomputable def l2norm (x : List ℝ) : ℝ :=
  Real.sqrt ((x.map (fun a => a ^ 2)).sum)

/-- sklearn `cosine_similarity` row-normalizes both sides, replacing a
zero norm by 1. -/
noncomputable def cosineSim (x y : List ℝ) : ℝ :=
  dotProduct x y /
    ((if l2norm x = 0 then 1 else l2norm x) *
      (if l2norm y = 0 then 1 else l2norm y))

noncomputable def euclideanDist (x y : List ℝ) : ℝ :=
  Real.sqrt (((x.zipWith (· - ·) y).map (fun a => a ^ 2)).sum)

/-- One row of `np.sum(np.abs(query - M), axis=1)` under numpy
broadcasting of the `(1, L)` query against an `(N, D)` matrix: the
aligned case `L = D`, the broadcast case `L = 1` (the single query entry
against every column), and the broadcast case `D = 1` (every query entry
against the single column). -/
noncomputable def manhattanRow (q row : List ℝ) : ℝ :=
  if q.length = row.length then (q.zipWith (fun a b => |a - b|) row).sum
  else if q.length = 1 then (row.map (fun b => |q.getD 0 0 - b|)).sum
  else (q.map (fun a => |a - row.getD 0 0|)).sum

/-- `_compute_similarity`: apply the fitted scaler when normalization is
on (sklearn raises on a feature-count mismatch), then score every stored
row against the query under the engine's metric; distance metrics are
inverted by `1 / (1 + d)`.  Raised `ValueError`s are `.error`
results. -/
noncomputable def computeSimilarity (metric : Metric) (normalize : Bool)
    (scaler : Option (List ℝ × List ℝ)) (M : List (List ℝ))
    (query_features : List ℝ) : Except String (List ℝ) :=
  let D := (M.headD []).length
  let step : Except String (List ℝ) :=
    match (if normalize then scaler else none) with
    | some (mean, scale) =>
      if query_features.length = mean.length then
        .ok (standardize mean scale query_features)
      else .error "X has a different number of features than the scaler"
    | none => .ok query_features
  match step with
  | .error msg => .error msg
  | .ok q =>
    match metric with
    | .cosine =>
      if q.length = D then .ok (M.map (fun row => cosineSim q row))
      else .error "Incompatible dimension for X and Y matrices"
    | .euclidean =>
      if q.length = D then
        .ok (M.map (fun row => 1 / (1 + euclideanDist q row)))
      else .error "Incompatible dimension for X and Y matrices"
    | .manhattan =>
      if q.length = D ∨ q.length = 1 ∨ D = 1 then
        .ok (M.map (fun row => 1 / (1 + manhattanRow q row)))
      else .error "operands could not be broadcast together"

/-- The index-comparison relation realized by a stable ascending
argsort: value ascending, equal values by index ascending. -/
def argsortRel (s : List ℝ) (i j : Nat) : Prop :=
  s.getD i 0 < s.getD j 0 ∨ (s.getD i 0 = s.getD j 0 ∧ i ≤ j)

noncomputable instance (s : List ℝ) : DecidableRel (argsortRel s) := fun i j => by
  unfold argsortRel
  infer_instance

instance (s : List ℝ) : IsTotal Nat (argsortRel s) := ⟨by
  intro i j
  rcases lt_trichotomy (s.getD i 0) (s.getD j 0) with h | h | h
  · exact .inl (.inl h)
  · rcases le_total i j with hij | hij
    · exact .inl (.inr ⟨h, hij⟩)
    · exact .inr (.inr ⟨h.symm, hij⟩)
  · exact .inr (.inl h)⟩

instance (s : List ℝ) : IsTrans Nat (argsortRel s) := ⟨by
  intro a b c hab hbc
  rcases hab with h1 | ⟨h1, h1'⟩ <;> rcases hbc with h2 | ⟨h2, h2'⟩
  · exact .inl (h1.trans h2)
  · exact .inl (by rw [← h2]; exact h1)
  · exact .inl (by rw [h1]; exact h2)
  · exact .inr ⟨h1.trans h2, h1'.trans h2'⟩⟩

/-- `np.argsort` modelled as a deterministic stable ascending argsort:
the indices `0, ..., n-1` sorted by score ascending, equal scores kept in
ascending index order (numpy's default introsort leaves the order of
equal entries unspecified; the stable refinement — what kind=stable
produces — is the canonical deterministic model). -/
noncomputable def argsort (s : List ℝ) : List Nat :=
  List.insertionSort (argsortRel s) (List.range s.length)

/-- `find_similar`: fail on an unfitted engine, score the query, rank by
`np.argsort(similarities)[::-1][:top_k]`, and decorate each index with
its score and, when a DataFrame is attached, the row's id and name. -/
noncomputable def SimilarityEngine.find_similar (e : SimilarityEngine)
    (query_features : List ℝ) (top_k : Nat) :
    Except String (List SimilarityResult) :=
  match e.feature_matrix with
  | none => .error "Engine not fitted. Call fit() first."
  | some M =>
    match computeSimilarity e.metric e.normalize e.scaler M query_features with
    | .error msg => .error msg
    | .ok similarities =>
      let top_indices := (argsort similarities).reverse.take top_k
      .ok (top_indices.map (fun idx =>
        { index := idx
          similarity := similarities.getD idx 0
          id := e.df.map (fun side => (side.getD idx (0, "")).1)
          name := e.df.map (fun side => (side.getD idx (0, "")).2) }))

/-- C8: `find_similar` on a never-fitted engine (any metric, any
normalization setting, any query, any `top_k`) fails with the defined
error and never returns a result. -/
theorem C8_unfitted_engine_raises (metric : Metric) (normalize : Bool)
    (q : List ℝ) (k : Nat) :
    (SimilarityEngine.init metric normalize).find_similar q k =
      .error "Engine not fitted. Call fit() first." := rfl

theorem C8_unfitted_engine_raises_witness :
    (SimilarityEngine.init .cosine true).find_similar [1, 0] 5 =
      .error "Engine not fitted. Call fit() first." :=
  C8_unfitted_engine_raises .cosine true [1, 0] 5

theorem argsort_nodup (s : List ℝ) : (argsort s).Nodup :=
  ((List.perm_insertionSort (argsortRel s) (List.range s.length)).nodup_iff).mpr
    (List.nodup_range s.length)

theorem argsort_sorted (s : List ℝ) :
    List.Pairwise (argsortRel s) (argsort s) :=
  List.sorted_insertionSort (argsortRel s) (List.range s.length)

/-- C6 as realized by the code (amended): a successful `find_similar`
returns at most `top_k` entries, ordered descending by similarity score
with ties between equal scores broken by **descending** original row
index (the ascending stable argsort is reversed wholesale, so equal
scores come out in reverse index order, not ascending). -/
theorem C6_ranking_order (e : SimilarityEngine) (q : List ℝ) (k : Nat)
    (r : List SimilarityResult) (h : e.find_similar q k = .ok r) :
    r.length ≤ k ∧
    List.Chain' (fun a b : SimilarityResult =>
      b.similarity < a.similarity ∨
        (a.similarity = b.similarity ∧ b.index < a.index)) r := by
  rw [SimilarityEngine.find_similar] at h
  split at h
  · exact absurd h (by simp)
  · split at h
    · exact absurd h (by simp)
    · rename_i sims hs
      simp only [Except.ok.injEq] at h
      subst h
      constructor
      · rw [List.length_map]
        exact List.length_take_le k _
      · apply List.Pairwise.chain'
        rw [List.pairwise_map]
        have hsorted : List.Pairwise (fun i j => argsortRel sims j i)
            (argsort sims).reverse :=
          List.pairwise_reverse.mpr (argsort_sorted sims)
        have hnodup : List.Pairwise (fun i j : Nat => i ≠ j)
            (argsort sims).reverse :=
          List.nodup_reverse.mpr (argsort_nodup sims)
        have hpair := (List.Pairwise.sublist (List.take_sublist k _)
          (hsorted.and hnodup) : List.Pairwise _ ((argsort sims).reverse.take k))
        refine hpair.imp ?_
        rintro i j ⟨hrel, hne⟩
        rcases hrel with hlt | ⟨heq, hle⟩
        · exact .inl hlt
        · exact .inr ⟨heq.symm, lt_of_le_of_ne hle (Ne.symm hne)⟩

theorem argsort_single (x : ℝ) : (argsort [x]).reverse = [0] := by
  have h1 : argsort [x] = List.insertionSort (argsortRel [x]) [0] := rfl
  simp [h1, List.insertionSort, List.orderedInsert]

theorem argsort_pair_lt (a b : ℝ) (h : b < a) :
    (argsort [a, b]).reverse = [0, 1] := by
  have hrel : ¬ argsortRel [a, b] 0 1 := by
    rintro (hlt | ⟨heq, -⟩)
    · exact absurd hlt (not_lt.mpr h.le)
    · exact absurd heq (ne_of_gt h)
  have h1 : argsort [a, b] = List.insertionSort (argsortRel [a, b]) [0, 1] := rfl
  simp only [h1, List.insertionSort, List.orderedInsert]
  rw [if_neg hrel]
  rfl

theorem argsort_pair_tie (a : ℝ) : (argsort [a, a]).reverse = [1, 0] := by
  have hrel : argsortRel [a, a] 0 1 := .inr ⟨rfl, by norm_num⟩
  have h1 : argsort [a, a] = List.insertionSort (argsortRel [a, a]) [0, 1] := rfl
  simp only [h1, List.insertionSort, List.orderedInsert]
  rw [if_pos hrel]
  rfl

theorem argsort_three (a b c : ℝ) (h₁ : b < c) (h₂ : c < a) :
    (argsort [a, b, c]).reverse = [0, 2, 1] := by
  have hrel12 : argsortRel [a, b, c] 1 2 := .inl h₁
  have hrel01 : ¬ argsortRel [a, b, c] 0 1 := by
    rintro (hlt | ⟨heq, -⟩)
    · exact absurd hlt (not_lt.mpr (h₁.trans h₂).le)
    · exact absurd heq (ne_of_gt (h₁.trans h₂))
  have hrel02 : ¬ argsortRel [a, b, c] 0 2 := by
    rintro (hlt | ⟨heq, -⟩)
    · exact absurd hlt (not_lt.mpr h₂.le)
    · exact absurd heq (ne_of_gt h₂)
  have h1 : argsort [a, b, c] =
      List.insertionSort (argsortRel [a, b, c]) [0, 1, 2] := rfl
  simp only [h1, List.insertionSort, List.orderedInsert]
  rw [if_pos hrel12]
  simp only [List.orderedInsert]
  rw [if_neg hrel01, if_neg hrel02]
  rfl

theorem find_similar_fitted (metric : Metric) (normalize : Bool)
    (scaler : Option (List ℝ × List ℝ)) (M : List (List ℝ))
    (side : List (Int × String)) (q : List ℝ) (k : Nat) (sims : List ℝ)
    (hs : computeSimilarity metric normalize scaler M q = .ok sims) :
    SimilarityEngine.find_similar ⟨metric, normalize, scaler, some M, some side⟩
        q k =
      .ok (((argsort sims).reverse.take k).map (fun idx =>
        ⟨idx, sims.getD idx 0, some (side.getD idx (0, "")).1,
          some (side.getD idx (0, "")).2⟩)) := by
  rw [SimilarityEngine.find_similar]
  dsimp only
  rw [hs]
  rfl

/-- C6 counterexample: fit two reference rows at equal manhattan distance
from the query (no normalization).  Both similarities are `1/2`, yet
`find_similar` lists original row index 1 before index 0: the reversal of
the ascending argsort breaks ties by descending, not ascending, row
index, refuting the claim's tie-break order at this input. -/
theorem C6_counterexample_tie_order :
    ∃ r, ((SimilarityEngine.init .manhattan false).fit
        [⟨1, "A", [1]⟩, ⟨2, "B", [-1]⟩]).find_similar [0] 2 = .ok r ∧
      r.map (fun x => x.index) = [1, 0] ∧
      r.map (fun x => x.similarity) = [1 / 2, 1 / 2] ∧
      ¬ List.Chain' (fun a b : SimilarityResult =>
          b.similarity < a.similarity ∨
            (a.similarity = b.similarity ∧ a.index < b.index)) r := by
  have hfit : (SimilarityEngine.init .manhattan false).fit
      [⟨1, "A", [1]⟩, ⟨2, "B", [-1]⟩] =
      ⟨.manhattan, false, none, some [[1], [-1]], some [(1, "A"), (2, "B")]⟩ := rfl
  have hsims : computeSimilarity .manhattan false none [[(1 : ℝ)], [-1]] [0] =
      .ok [1 / 2, 1 / 2] := by
    simp [computeSimilarity, manhattanRow]
    norm_num
  refine ⟨[⟨1, 1 / 2, some 2, some "B"⟩, ⟨0, 1 / 2, some 1, some "A"⟩],
    ?_, rfl, rfl, ?_⟩
  · rw [hfit, find_similar_fitted .manhattan false none _ _ _ _ _ hsims,
      argsort_pair_tie (1 / 2)]
    rfl
  · intro hch
    simp only [List.chain'_cons, List.chain'_singleton, and_true] at hch
    rcases hch with hlt | ⟨-, hidx⟩
    · exact absurd hlt (lt_irrefl _)
    · exact absurd hidx (by norm_num)

theorem C6_ranking_order_witness :
    ([⟨0, 1 / 2, some 1, some "A"⟩, ⟨1, 1 / 3, some 2, some "B"⟩] :
        List SimilarityResult).length ≤ 2 ∧
    List.Chain' (fun a b : SimilarityResult =>
      b.similarity < a.similarity ∨
        (a.similarity = b.similarity ∧ b.index < a.index))
      [⟨0, 1 / 2, some 1, some "A"⟩, ⟨1, 1 / 3, some 2, some "B"⟩] :=
  C6_ranking_order ((SimilarityEngine.init .manhattan false).fit
      [⟨1, "A", [0]⟩, ⟨2, "B", [3]⟩]) [1] 2
    [⟨0, 1 / 2, some 1, some "A"⟩, ⟨1, 1 / 3, some 2, some "B"⟩]
    (by
      have hsims : computeSimilarity .manhattan false none [[(0 : ℝ)], [3]] [1] =
          .ok [1 / 2, 1 / 3] := by
        simp [computeSimilarity, manhattanRow]
        norm_num
      rw [show (SimilarityEngine.init .manhattan false).fit
          [⟨1, "A", [0]⟩, ⟨2, "B", [3]⟩] =
          ⟨.manhattan, false, none, some [[0], [3]], some [(1, "A"), (2, "B")]⟩
          from rfl,
        find_similar_fitted .manhattan false none _ _ _ _ _ hsims,
        argsort_pair_lt (1 / 2) (1 / 3) (by norm_num)]
      rfl)

theorem sqrt_two_gt_one : (1 : ℝ) < Real.sqrt 2 := by
  have h := Real.sqrt_lt_sqrt (by norm_num : (0 : ℝ) ≤ 1) (by norm_num : (1 : ℝ) < 2)
  rwa [Real.sqrt_one] at h

/-- C7: with reference vectors `A = [1,0]`, `B = [0,1]`, `C = [1,1]` and
no normalization: under the cosine metric, query `[1,0]` with `top_k = 1`
returns exactly `A` with similarity 1; under the euclidean metric the
similarity is `1 / (1 + distance)`, giving
`A = 1 > C = 1/(1+1) > B = 1/(1+sqrt 2)` and the ranking `A, C, B`. -/
theorem C7_fixed_scenarios :
    ((SimilarityEngine.init .cosine false).fit
        [⟨0, "A", [1, 0]⟩, ⟨1, "B", [0, 1]⟩, ⟨2, "C", [1, 1]⟩]).find_similar
        [1, 0] 1 = .ok [⟨0, 1, some 0, some "A"⟩] ∧
    ((SimilarityEngine.init .euclidean false).fit
        [⟨0, "A", [1, 0]⟩, ⟨1, "B", [0, 1]⟩, ⟨2, "C", [1, 1]⟩]).find_similar
        [1, 0] 3 =
      .ok [⟨0, 1, some 0, some "A"⟩, ⟨2, 1 / (1 + 1), some 2, some "C"⟩,
        ⟨1, 1 / (1 + Real.sqrt 2), some 1, some "B"⟩] ∧
    (1 : ℝ) > 1 / (1 + 1) ∧
    (1 : ℝ) / (1 + 1) > 1 / (1 + Real.sqrt 2) := by
  have h2pos : (0 : ℝ) < Real.sqrt 2 := Real.sqrt_pos.mpr (by norm_num)
  have hs2 : Real.sqrt 2 ≠ 0 := ne_of_gt h2pos
  have hCB : 1 / (1 + Real.sqrt 2) < (1 : ℝ) / (1 + 1) := by
    apply one_div_lt_one_div_of_lt (by norm_num)
    linarith [sqrt_two_gt_one]
  refine ⟨?_, ?_, by norm_num, hCB⟩
  · have hn10 : l2norm [(1 : ℝ), 0] = 1 := by
      simp [l2norm]
    have hn01 : l2norm [(0 : ℝ), 1] = 1 := by
      simp [l2norm]
    have hn11 : l2norm [(1 : ℝ), 1] = Real.sqrt 2 := by
      simp [l2norm]
      norm_num
    have hsims : computeSimilarity .cosine false none
        [[(1 : ℝ), 0], [0, 1], [1, 1]] [1, 0] =
        .ok [1, 0, 1 / Real.sqrt 2] := by
      simp [computeSimilarity, cosineSim, dotProduct, hn10, hn01, hn11, hs2]
    have hb : (0 : ℝ) < 1 / Real.sqrt 2 := by positivity
    have hc : (1 : ℝ) / Real.sqrt 2 < 1 := by
      rw [div_lt_one h2pos]
      exact sqrt_two_gt_one
    rw [show (SimilarityEngine.init .cosine false).fit
        [⟨0, "A", [1, 0]⟩, ⟨1, "B", [0, 1]⟩, ⟨2, "C", [1, 1]⟩] =
        ⟨.cosine, false, none, some [[1, 0], [0, 1], [1, 1]],
          some [(0, "A"), (1, "B"), (2, "C")]⟩ from rfl,
      find_similar_fitted .cosine false none _ _ _ _ _ hsims,
      argsort_three 1 0 (1 / Real.sqrt 2) hb hc]
    rfl
  · have hdA : euclideanDist [(1 : ℝ), 0] [1, 0] = 0 := by
      simp [euclideanDist]
    have hdB : euclideanDist [(1 : ℝ), 0] [0, 1] = Real.sqrt 2 := by
      simp [euclideanDist]
      norm_num
    have hdC : euclideanDist [(1 : ℝ), 0] [1, 1] = 1 := by
      simp [euclideanDist]
    have hsims : computeSimilarity .euclidean false none
        [[(1 : ℝ), 0], [0, 1], [1, 1]] [1, 0] =
        .ok [1, 1 / (1 + Real.sqrt 2), 1 / (1 + 1)] := by
      simp [computeSimilarity, hdA, hdB, hdC]
    have hcb : 1 / (1 + Real.sqrt 2) < (1 : ℝ) / (1 + 1) := hCB
    have hca : (1 : ℝ) / (1 + 1) < 1 := by norm_num
    rw [show (SimilarityEngine.init .euclidean false).fit
        [⟨0, "A", [1, 0]⟩, ⟨1, "B", [0, 1]⟩, ⟨2, "C", [1, 1]⟩] =
        ⟨.euclidean, false, none, some [[1, 0], [0, 1], [1, 1]],
          some [(0, "A"), (1, "B"), (2, "C")]⟩ from rfl,
      find_similar_fitted .euclidean false none _ _ _ _ _ hsims,
      argsort_three 1 (1 / (1 + Real.sqrt 2)) (1 / (1 + 1)) hcb hca]
    rfl

theorem fit_false (metric : Metric) (df : List AudioRow) :
    (SimilarityEngine.init metric false).fit df =
      ⟨metric, false, none, some (df.map (fun r => r.features)),
        some (df.map (fun r => (r.id, r.name)))⟩ := rfl

theorem fit_true (metric : Metric) (df : List AudioRow) :
    (SimilarityEngine.init metric true).fit df =
      ⟨metric, true,
        some ((List.range ((df.map (fun r => r.features)).headD []).length).map
            (colMean (df.map (fun r => r.features))),
          (List.range ((df.map (fun r => r.features)).headD []).length).map
            (colScale (df.map (fun r => r.features)))),
        some ((df.map (fun r => r.features)).map
          (standardize
            ((List.range ((df.map (fun r => r.features)).headD []).length).map
              (colMean (df.map (fun r => r.features))))
            ((List.range ((df.map (fun r => r.features)).headD []).length).map
              (colScale (df.map (fun r => r.features)))))),
        some (df.map (fun r => (r.id, r.name)))⟩ := rfl

theorem find_similar_error (metric : Metric) (normalize : Bool)
    (scaler : Option (List ℝ × List ℝ)) (M : List (List ℝ))
    (side : List (Int × String)) (q : List ℝ) (k : Nat) (msg : String)
    (hs : computeSimilarity metric normalize scaler M q = .error msg) :
    SimilarityEngine.find_similar ⟨metric, normalize, scaler, some M, some side⟩
      q k = .error msg := by
  rw [SimilarityEngine.find_similar]
  dsimp only
  rw [hs]

theorem computeSimilarity_scaler_mismatch (metric : Metric)
    (mean scale : List ℝ) (M : List (List ℝ)) (q : List ℝ)
    (h : q.length ≠ mean.length) :
    computeSimilarity metric true (some (mean, scale)) M q =
      .error "X has a different number of features than the scaler" := by
  simp [computeSimilarity, h]

theorem computeSimilarity_nonorm_mismatch (metric : Metric)
    (M : List (List ℝ)) (q : List ℝ)
    (hq : q.length ≠ (M.headD []).length)
    (hm : metric = .cosine ∨ metric = .euclidean ∨
      (metric = .manhattan ∧ q.length ≠ 1 ∧ (M.headD []).length ≠ 1)) :
    ∃ msg, computeSimilarity metric false none M q = .error msg := by
  rcases hm with h | h | ⟨h, h1, hD⟩
  · subst h
    exact ⟨"Incompatible dimension for X and Y matrices",
      by rw [List.headD_eq_head?] at hq; simp [computeSimilarity, hq]⟩
  · subst h
    exact ⟨"Incompatible dimension for X and Y matrices",
      by rw [List.headD_eq_head?] at hq; simp [computeSimilarity, hq]⟩
  · subst h
    exact ⟨"operands could not be broadcast together",
      by
        rw [List.headD_eq_head?] at hq hD
        simp [computeSimilarity, hq, h1, hD]⟩

/-- C9 as realized by the code (amended): a fitted engine rejects a query
whose length differs from the fitted dimensionality `D` whenever
normalization is enabled (the scaler checks the feature count), or the
metric is cosine or euclidean (sklearn checks the pairwise dimensions);
under the manhattan metric without normalization the mismatch is only
rejected when the numpy shapes do not broadcast, i.e. when the query
length and `D` both differ from 1. -/
theorem C9_query_dimension (metric : Metric) (normalize : Bool)
    (df : List AudioRow) (D k : Nat) (q : List ℝ)
    (hdf : df ≠ []) (hrect : ∀ row ∈ df, row.features.length = D)
    (hq : q.length ≠ D)
    (hcase : normalize = true ∨ metric = .cosine ∨ metric = .euclidean ∨
      (q.length ≠ 1 ∧ D ≠ 1)) :
    ∃ msg, ((SimilarityEngine.init metric normalize).fit df).find_similar q k =
      .error msg := by
  obtain ⟨r0, rest, rfl⟩ : ∃ r0 rest, df = r0 :: rest := by
    cases df with
    | nil => exact absurd rfl hdf
    | cons a l => exact ⟨a, l, rfl⟩
  have hDlen : (((r0 :: rest).map (fun r => r.features)).headD []).length = D :=
    hrect r0 (List.mem_cons_self r0 rest)
  cases normalize with
  | true =>
    rw [fit_true]
    refine ⟨"X has a different number of features than the scaler", ?_⟩
    apply find_similar_error
    apply computeSimilarity_scaler_mismatch
    rw [List.length_map, List.length_range, hDlen]
    exact hq
  | false =>
    rw [fit_false]
    have hm : metric = .cosine ∨ metric = .euclidean ∨
        (metric = .manhattan ∧ q.length ≠ 1 ∧
          (((r0 :: rest).map (fun r => r.features)).headD []).length ≠ 1) := by
      rcases hcase with hn | h | h | ⟨h1, hD⟩
      · exact absurd hn (by simp)
      · exact .inl h
      · exact .inr (.inl h)
      · cases metric with
        | cosine => exact .inl rfl
        | euclidean => exact .inr (.inl rfl)
        | manhattan =>
          refine .inr (.inr ⟨rfl, h1, ?_⟩)
          rw [hDlen]
          exact hD
    obtain ⟨msg, hmsg⟩ := computeSimilarity_nonorm_mismatch metric
      ((r0 :: rest).map (fun r => r.features)) q (by rw [hDlen]; exact hq) hm
    exact ⟨msg, find_similar_error _ _ _ _ _ _ _ _ hmsg⟩

theorem C9_query_dimension_witness :
    ∃ msg, ((SimilarityEngine.init .cosine false).fit
      [⟨0, "A", [0, 0]⟩]).find_similar [1] 1 = .error msg :=
  C9_query_dimension .cosine false [⟨0, "A", [0, 0]⟩] 2 1 [1]
    (by simp)
    (by
      intro row hr
      rw [List.mem_singleton] at hr
      subst hr
      rfl)
    (by norm_num)
    (.inr (.inl rfl))

/-- C9 counterexample: a fitted manhattan engine without normalization,
reference dimensionality `D = 2`, and a query of length 1: the numpy
subtraction broadcasts instead of raising, and `find_similar` returns a
result (similarity `1/(1+2) = 1/3`) even though the query length differs
from `D`, refuting the claim for this metric/normalization setting. -/
theorem C9_counterexample_broadcast :
    ((SimilarityEngine.init .manhattan false).fit
        [⟨0, "A", [0, 0]⟩]).find_similar [1] 1 =
      .ok [⟨0, 1 / 3, some 0, some "A"⟩] ∧
    ([(1 : ℝ)].length ≠ ([[(0 : ℝ), 0]].headD []).length) := by
  constructor
  · have hsims : computeSimilarity .manhattan false none [[(0 : ℝ), 0]] [1] =
        .ok [1 / 3] := by
      simp [computeSimilarity, manhattanRow]
      norm_num
    rw [show (SimilarityEngine.init .manhattan false).fit [⟨0, "A", [0, 0]⟩] =
        ⟨.manhattan, false, none, some [[0, 0]], some [(0, "A")]⟩ from rfl,
      find_similar_fitted .manhattan false none _ _ _ _ _ hsims,
      argsort_single (1 / 3)]
    rfl
  · norm_num

/-! ## Fire-and-forget submitter (api/src/modules/repository.py)

`_fire_and_forget` opens a connection, declares the durable queue, reads
`payload.get("job_id", str(uuid.uuid4()))`, publishes
`json.dumps(payload)` persistently to the queue's routing key on the
default exchange, closes the connection and returns the job id.  The
fresh UUID drawn from the generator is modelled as an explicit argument;
payloads are flat JSON objects of strings and integers. -/

inductive JsonValue where
  | str (s : String)
  | num (n : Int)
deriving DecidableEq, Repr

/-- `json.dumps` of one value (string escaping is not modelled: payload
strings are assumed escape-free, as the job payloads of this API are). -/
def JsonValue.dump : JsonValue → String
  | .str s => "\"" ++ s ++ "\""
  | .num n => toString n

/-- `json.dumps` of a flat object, Python default separators, keys in
insertion order as Python dicts preserve it. -/
def jsonDumps (payload : List (String × JsonValue)) : String :=
  "\x7b" ++ String.intercalate ", "
    (payload.map (fun kv => "\"" ++ kv.1 ++ "\": " ++ kv.2.dump)) ++ "\x7d"

/-- The single message published by `_fire_and_forget`: default exchange,
routing key, `delivery_mode=2`, body. -/
structure AsyncPublished where
  exchange : String
  routing_key : String
  delivery_mode : Nat
  body : String
deriving DecidableEq, Repr

/-- `_fire_and_forget`: take `job_id` from the payload, defaulting to the
fresh UUID; publish the JSON encoding of the unmodified payload; return
the published message and the job id. -/
def _fire_and_forget (queue_name : String)
    (payload : List (String × JsonValue)) (fresh_uuid : String) :
    AsyncPublished × JsonValue :=
  let job_id := (payload.lookup "job_id").getD (.str fresh_uuid)
  (⟨"", queue_name, 2, jsonDumps payload⟩, job_id)

/-- C10: the published body is exactly the JSON encoding of the given
payload (sent persistently to the queue's routing key); the returned job
id is the payload's `job_id` value when that key is present; when it is
absent the returned id is the fresh UUID, and the published message does
not depend on that UUID at all — in particular a UUID that does not occur
inside the encoded payload does not occur in the published body. -/
theorem C10_fire_and_forget_submitter (queue_name : String)
    (payload : List (String × JsonValue)) (u : String) :
    (_fire_and_forget queue_name payload u).1.body = jsonDumps payload ∧
    (_fire_and_forget queue_name payload u).1.routing_key = queue_name ∧
    (_fire_and_forget queue_name payload u).1.delivery_mode = 2 ∧
    (∀ v, payload.lookup "job_id" = some v →
      (_fire_and_forget queue_name payload u).2 = v) ∧
    (payload.lookup "job_id" = none →
      (_fire_and_forget queue_name payload u).2 = .str u) ∧
    (∀ u₂, (_fire_and_forget queue_name payload u).1 =
      (_fire_and_forget queue_name payload u₂).1) ∧
    (¬ u.data <:+: (jsonDumps payload).data →
      ¬ u.data <:+: (_fire_and_forget queue_name payload u).1.body.data) := by
  refine ⟨rfl, rfl, rfl, ?_, ?_, fun u₂ => rfl, fun h hc => h hc⟩
  · intro v hv
    simp [_fire_and_forget, hv]
  · intro hnone
    simp [_fire_and_forget, hnone]

theorem C10_fire_and_forget_submitter_witness :
    (_fire_and_forget "music_tasks"
      [("job_id", .str "j1"), ("type", .str "extraction")] "u").2 = .str "j1" ∧
    (_fire_and_forget "music_tasks" [("type", .str "extraction")] "u").2 =
      .str "u" ∧
    (_fire_and_forget "music_tasks" [("type", .str "extraction")] "u").1.body =
      jsonDumps [("type", .str "extraction")] :=
  ⟨(C10_fire_and_forget_submitter "music_tasks"
      [("job_id", .str "j1"), ("type", .str "extraction")] "u").2.2.2.1
      (.str "j1") rfl,
   (C10_fire_and_forget_submitter "music_tasks"
      [("type", .str "extraction")] "u").2.2.2.2.1 rfl,
   (C10_fire_and_forget_submitter "music_tasks"
      [("type", .str "extraction")] "u").1⟩
